import Mathlib

/-!
Formal model of the cache-key derivation and cache-or-fetch coordination
logic of the Insurance_Verification backend.

The model is a shallow embedding of the relevant Python source files:

* `backend/app/services/cache_service.py` (CacheService: key derivation,
  get_verification, cache_verification),
* `backend/app/core/redis_client.py` (RedisClient wrapper: error handling
  on the read and write paths),
* `backend/app/api/routes/verification.py` (verify_insurance handler:
  cache-then-fetch-then-store coordination),
* `backend/app/main.py` (verify handler: force_refresh bypass flag),
* `backend/app/core/mock_redis.py` (MockRedis: the in-memory store with
  TTL semantics; this is the store actually wired into app.main via
  app/core/database.py).

Machine integers are modeled as Nat with explicit reduction modulo 2^32
where the SHA-256 compression overflows.  Python exceptions are modeled
as Option / explicit error constructors.  Wall-clock time (time.time())
is modeled as an explicit Nat-valued instant passed to every store
operation.  JSON serialization performed by json.dumps / json.loads on
the cache round trip is collapsed to the identity on the dictionary
values it transports; the pydantic model_dump_json serializer is an
injected function parameter where a handler stores a serialized
response.
-/

namespace Sha

/-- Reduction of a machine word modulo 2^32 (Python hashlib works on
32-bit words). -/
def w32 (x : Nat) : Nat := x % 4294967296

/-- Rotate the 32-bit word x right by n positions. -/
def rotr (n x : Nat) : Nat := ((x >>> n) ||| (x <<< (32 - n))) % 4294967296

/-- FIPS 180-4 Sigma0. -/
def bigSigma0 (x : Nat) : Nat := (rotr 2 x) ^^^ (rotr 13 x) ^^^ (rotr 22 x)

/-- FIPS 180-4 Sigma1. -/
def bigSigma1 (x : Nat) : Nat := (rotr 6 x) ^^^ (rotr 11 x) ^^^ (rotr 25 x)

/-- FIPS 180-4 sigma0. -/
def smallSigma0 (x : Nat) : Nat := (rotr 7 x) ^^^ (rotr 18 x) ^^^ (x >>> 3)

/-- FIPS 180-4 sigma1. -/
def smallSigma1 (x : Nat) : Nat := (rotr 17 x) ^^^ (rotr 19 x) ^^^ (x >>> 10)

/-- FIPS 180-4 Ch; the complement is taken inside 32 bits. -/
def ch (x y z : Nat) : Nat := (x &&& y) ^^^ ((x ^^^ 4294967295) &&& z)

/-- FIPS 180-4 Maj. -/
def maj (x y z : Nat) : Nat := (x &&& y) ^^^ (x &&& z) ^^^ (y &&& z)

/-- The round-constant table of FIPS 180-4 (fractional parts of the
cube roots of the first 64 primes), written in decimal. -/
def K : List Nat :=
  [1116352408, 1899447441, 3049323471, 3921009573, 961987163,
   1508970993, 2453635748, 2870763221, 3624381080, 310598401,
   607225278, 1426881987, 1925078388, 2162078206, 2614888103,
   3248222580, 3835390401, 4022224774, 264347078, 604807628,
   770255983, 1249150122, 1555081692, 1996064986, 2554220882,
   2821834349, 2952996808, 3210313671, 3336571891, 3584528711,
   113926993, 338241895, 666307205, 773529912, 1294757372,
   1396182291, 1695183700, 1986661051, 2177026350, 2456956037,
   2730485921, 2820302411, 3259730800, 3345764771, 3516065817,
   3600352804, 4094571909, 275423344, 430227734, 506948616,
   659060556, 883997877, 958139571, 1322822218, 1537002063,
   1747873779, 1955562222, 2024104815, 2227730452, 2361852424,
   2428436474, 2756734187, 3204031479, 3329325298]

/-- The eight 32-bit working registers of the compression function. -/
structure Regs where
  a : Nat
  b : Nat
  c : Nat
  d : Nat
  e : Nat
  f : Nat
  g : Nat
  h : Nat
deriving DecidableEq

/-- The initial register values of FIPS 180-4, in decimal. -/
def H0 : Regs :=
  ⟨1779033703, 3144134277, 1013904242, 2773480762,
   1359893119, 2600822924, 528734635, 1541459225⟩

/-- Big-endian byte decomposition of a word into `n` bytes. -/
def toBytesBE (n x : Nat) : List Nat :=
  (List.range n).map (fun i => (x >>> (8 * (n - 1 - i))) % 256)

/-- SHA-256 message padding: append 0x80, zero bytes up to 56 mod 64,
then the bit length as an 8-byte big-endian integer. -/
def pad (msg : List Nat) : List Nat :=
  let L := msg.length
  msg ++ [0x80] ++ List.replicate ((119 - L % 64) % 64) 0 ++ toBytesBE 8 (8 * L)

/-- Parse a byte list into big-endian 32-bit words. -/
def toWords : List Nat → List Nat
  | b0 :: b1 :: b2 :: b3 :: rest => (((b0 * 256 + b1) * 256 + b2) * 256 + b3) :: toWords rest
  | _ => []

/-- Split a padded message into its 16-word blocks (the first argument
is the number of blocks, making the recursion structural). -/
def parseBlocks : Nat → List Nat → List (List Nat)
  | 0, _ => []
  | n + 1, l => toWords (l.take 64) :: parseBlocks n (l.drop 64)

/-- One extension step of the message schedule: append word
W[i] = sigma1 W[i-2] + W[i-7] + sigma0 W[i-15] + W[i-16]. -/
def schedStep (w : List Nat) : List Nat :=
  let n := w.length
  w ++ [w32 (smallSigma1 (w.getD (n - 2) 0) + w.getD (n - 7) 0 +
             smallSigma0 (w.getD (n - 15) 0) + w.getD (n - 16) 0)]

/-- The 64-word message schedule of a block. -/
def schedule (block : List Nat) : List Nat := schedStep^[48] block

/-- One round of the SHA-256 compression function. -/
def round1 (st : Regs) (kw : Nat × Nat) : Regs :=
  let t1 := w32 (st.h + bigSigma1 st.e + ch st.e st.f st.g + kw.1 + kw.2)
  let t2 := w32 (bigSigma0 st.a + maj st.a st.b st.c)
  ⟨w32 (t1 + t2), st.a, st.b, st.c, w32 (st.d + t1), st.e, st.f, st.g⟩

/-- Compress one 512-bit block into the running hash value. -/
def compress (hs : Regs) (block : List Nat) : Regs :=
  let w := schedule block
  let fin := (K.zip w).foldl round1 hs
  ⟨w32 (hs.a + fin.a), w32 (hs.b + fin.b), w32 (hs.c + fin.c), w32 (hs.d + fin.d),
   w32 (hs.e + fin.e), w32 (hs.f + fin.f), w32 (hs.g + fin.g), w32 (hs.h + fin.h)⟩

/-- SHA-256 of a byte list, as its 32 digest bytes (the semantics of
Python hashlib.sha256). -/
def sha256 (msg : List Nat) : List Nat :=
  let padded := pad msg
  let fin := (parseBlocks (padded.length / 64) padded).foldl compress H0
  toBytesBE 4 fin.a ++ toBytesBE 4 fin.b ++ toBytesBE 4 fin.c ++ toBytesBE 4 fin.d ++
  toBytesBE 4 fin.e ++ toBytesBE 4 fin.f ++ toBytesBE 4 fin.g ++ toBytesBE 4 fin.h

/-- The sixteen lowercase hexadecimal digit characters. -/
def lowerHexChars : List Char := "0123456789abcdef".data

/-- The lowercase hexadecimal digit of a value taken modulo 16. -/
def hexChar (n : Nat) : Char := lowerHexChars.getD (n % 16) '0'

/-- Two lowercase hex characters per byte, as Python hexdigest renders
a digest. -/
def hexBytes : List Nat → List Char
  | [] => []
  | b :: bs => hexChar (b / 16) :: hexChar (b % 16) :: hexBytes bs

/-- Python hashlib hexdigest: the digest bytes in lowercase hex. -/
def hexDigest (bs : List Nat) : String := ⟨hexBytes bs⟩

theorem length_toBytesBE (n x : Nat) : (toBytesBE n x).length = n := by
  simp [toBytesBE]

theorem sha256_length (msg : List Nat) : (sha256 msg).length = 32 := by
  simp [sha256, length_toBytesBE]

theorem hexBytes_length (bs : List Nat) : (hexBytes bs).length = 2 * bs.length := by
  induction bs with
  | nil => simp [hexBytes]
  | cons b bs ih => simp only [hexBytes, List.length_cons, ih]; omega

theorem hexChar_mem (n : Nat) : hexChar n ∈ lowerHexChars := by
  have h16 : n % 16 = 0 ∨ n % 16 = 1 ∨ n % 16 = 2 ∨ n % 16 = 3 ∨ n % 16 = 4 ∨ n % 16 = 5 ∨
      n % 16 = 6 ∨ n % 16 = 7 ∨ n % 16 = 8 ∨ n % 16 = 9 ∨ n % 16 = 10 ∨ n % 16 = 11 ∨
      n % 16 = 12 ∨ n % 16 = 13 ∨ n % 16 = 14 ∨ n % 16 = 15 := by omega
  simp only [hexChar]
  rcases h16 with h | h | h | h | h | h | h | h | h | h | h | h | h | h | h | h <;>
    rw [h] <;> decide

theorem hexBytes_mem (bs : List Nat) : ∀ c ∈ hexBytes bs, c ∈ lowerHexChars := by
  induction bs with
  | nil => simp [hexBytes]
  | cons b bs ih =>
    intro c hc
    simp only [hexBytes, List.mem_cons] at hc
    rcases hc with rfl | rfl | hc
    · exact hexChar_mem _
    · exact hexChar_mem _
    · exact ih c hc

end Sha

/-- Python str.lower on one character, restricted to its ASCII fragment
(every identity-field and namespace character used by the API is ASCII). -/
def pyLowerChar (c : Char) : Char :=
  if 65 ≤ c.toNat ∧ c.toNat ≤ 90 then Char.ofNat (c.toNat + 32) else c

/-- Python str.lower (ASCII fragment). -/
def pyLower (s : String) : String := ⟨s.data.map pyLowerChar⟩

/-- Python ASCII whitespace test used by str.strip. -/
def isPySpace (c : Char) : Bool :=
  c = ' ' || c = '\t' || c = '\n' || c = '\r' || c.toNat = 11 || c.toNat = 12

/-- Python str.strip (ASCII fragment): remove leading and trailing
whitespace. -/
def pyStrip (s : String) : String :=
  ⟨((s.data.dropWhile isPySpace).reverse.dropWhile isPySpace).reverse⟩

/-- UTF-8 bytes of a single character, as Python str.encode emits them. -/
def utf8Char (c : Char) : List Nat :=
  let n := c.toNat
  if n < 128 then [n]
  else if n < 2048 then [192 ||| (n >>> 6), 128 ||| (n &&& 63)]
  else if n < 65536 then
    [224 ||| (n >>> 12), 128 ||| ((n >>> 6) &&& 63), 128 ||| (n &&& 63)]
  else
    [240 ||| (n >>> 18), 128 ||| ((n >>> 12) &&& 63), 128 ||| ((n >>> 6) &&& 63),
     128 ||| (n &&& 63)]

/-- Python str.encode: the UTF-8 bytes of a string. -/
def strBytes (s : String) : List Nat := s.data.flatMap utf8Char

/-- CacheService.generate_verification_key from
backend/app/services/cache_service.py: the colon-joined field string is
lowercased as a whole, hashed with SHA-256, and the hex digest is
prefixed with the namespace. -/
def generate_verification_key (provider member_id dob last_name : String) : String :=
  let key_string :=
    pyLower ("verification:" ++ provider ++ ":" ++ member_id ++ ":" ++ dob ++ ":" ++ last_name)
  "verification:" ++ Sha.hexDigest (Sha.sha256 (strBytes key_string))

/-- CacheService.generate_policy_key from
backend/app/services/cache_service.py. -/
def generate_policy_key (member_id dob last_name : String) : String :=
  let key_string := pyLower ("policy:" ++ member_id ++ ":" ++ dob ++ ":" ++ last_name)
  "policy:" ++ Sha.hexDigest (Sha.sha256 (strBytes key_string))

theorem pyLower_append (s t : String) : pyLower (s ++ t) = pyLower s ++ pyLower t := by
  apply String.ext
  simp [pyLower, String.data_append]

/-- C1 (amended): if the two field tuples are equal value-by-value after
lower-casing, the derived verification keys coincide. -/
theorem generate_verification_key_eq_of_lower_eq
    (p₁ m₁ d₁ l₁ p₂ m₂ d₂ l₂ : String)
    (hp : pyLower p₁ = pyLower p₂) (hm : pyLower m₁ = pyLower m₂)
    (hd : pyLower d₁ = pyLower d₂) (hl : pyLower l₁ = pyLower l₂) :
    generate_verification_key p₁ m₁ d₁ l₁ = generate_verification_key p₂ m₂ d₂ l₂ := by
  unfold generate_verification_key
  have hkey :
      pyLower ("verification:" ++ p₁ ++ ":" ++ m₁ ++ ":" ++ d₁ ++ ":" ++ l₁) =
      pyLower ("verification:" ++ p₂ ++ ":" ++ m₂ ++ ":" ++ d₂ ++ ":" ++ l₂) := by
    simp only [pyLower_append, hp, hm, hd, hl]
  rw [hkey]

/-- Witness for the amended C1 theorem at concrete inputs differing only
in ASCII case. -/
theorem generate_verification_key_eq_of_lower_eq_witness :
    pyLower "Aetna" = pyLower "aetna" ∧ pyLower "M1" = pyLower "m1" ∧
    pyLower "1990-01-01" = pyLower "1990-01-01" ∧ pyLower "Doe" = pyLower "doe" ∧
    generate_verification_key "Aetna" "M1" "1990-01-01" "Doe" =
      generate_verification_key "aetna" "m1" "1990-01-01" "doe" :=
  ⟨by decide, by decide, by decide, by decide,
   generate_verification_key_eq_of_lower_eq "Aetna" "M1" "1990-01-01" "Doe"
     "aetna" "m1" "1990-01-01" "doe" (by decide) (by decide) (by decide) (by decide)⟩

set_option maxRecDepth 100000 in
/-- C1 (counterexample): two identity-field tuples that agree after
lower-casing and whitespace-trimming of their values, yet produce
different keys — the source only lowercases and never trims, so a
trailing space in member_id changes the digest. -/
theorem generate_verification_key_whitespace_counterexample :
    pyStrip (pyLower "a ") = pyStrip (pyLower "a") ∧
    generate_verification_key "p" "a " "d" "l" ≠ generate_verification_key "p" "a" "d" "l" := by
  constructor
  · decide
  · decide

/-- The substring relation on character lists (Python `in` on str). -/
def SubstringOf (v s : List Char) : Prop := ∃ x y, s = x ++ v ++ y

theorem SubstringOf.mem_of_mem {v s : List Char} (h : SubstringOf v s) :
    ∀ c ∈ v, c ∈ s := by
  rcases h with ⟨x, y, rfl⟩
  intro c hc
  simp [hc]

/-- Wire format of a derived cache key: the namespace, a colon, then a
64-character lowercase-hex digest. -/
def hasWireFormat (ns key : String) : Prop :=
  ∃ d : List Char, key.data = ns.data ++ ':' :: d ∧ d.length = 64 ∧
    ∀ c ∈ d, c ∈ Sha.lowerHexChars

/-- Every character a policy cache key can contain: the characters of
the namespace "policy", the colon, and the lowercase hex digits. -/
def policyKeyAlphabet : List Char := "policy:0123456789abcdef".data

theorem generate_policy_key_data (m d l : String) :
    (generate_policy_key m d l).data =
      "policy:".data ++
        Sha.hexBytes (Sha.sha256 (strBytes
          (pyLower ("policy:" ++ m ++ ":" ++ d ++ ":" ++ l)))) := by
  simp [generate_policy_key, String.data_append, Sha.hexDigest]

theorem generate_policy_key_alphabet (m d l : String) :
    ∀ c ∈ (generate_policy_key m d l).data, c ∈ policyKeyAlphabet := by
  have h1 : ∀ c ∈ "policy:".data, c ∈ policyKeyAlphabet := by decide
  have h2 : ∀ c ∈ Sha.lowerHexChars, c ∈ policyKeyAlphabet := by decide
  intro c hc
  rw [generate_policy_key_data] at hc
  rcases List.mem_append.1 hc with h | h
  · exact h1 c h
  · exact h2 c (Sha.hexBytes_mem _ c h)

set_option maxRecDepth 100000 in
/-- C9 (counterexample): the raw member_id value "policy" occurs as a
substring of its own derived policy key, because every derived key
carries the namespace as a plain text prefix — so the universal
"no raw identity-field value is a substring of any derived key" fails. -/
theorem policy_key_raw_value_substring_counterexample :
    SubstringOf "policy".data (generate_policy_key "policy" "1990-01-01" "doe").data := by
  refine ⟨[], ':' :: Sha.hexBytes (Sha.sha256 (strBytes
    (pyLower ("policy:" ++ "policy" ++ ":" ++ "1990-01-01" ++ ":" ++ "doe")))), ?_⟩
  rw [generate_policy_key_data]
  rfl

/-- C9 (amended): every derived policy key has the wire format of the
namespace, a colon and a 64-character lowercase-hex digest; and a raw
identity-field value can occur as a substring of a derived key only
when every one of its characters already lies in the tiny key alphabet
(the letters of the namespace, the colon and the lowercase hex digits) —
in particular any value containing an uppercase letter, a space or a
dash never occurs as a substring. -/
theorem generate_policy_key_format_and_privacy (m d l : String) :
    hasWireFormat "policy" (generate_policy_key m d l) ∧
    ∀ v : String, (∃ c ∈ v.data, c ∉ policyKeyAlphabet) →
      ¬ SubstringOf v.data (generate_policy_key m d l).data := by
  constructor
  · refine ⟨Sha.hexBytes (Sha.sha256 (strBytes
      (pyLower ("policy:" ++ m ++ ":" ++ d ++ ":" ++ l)))), ?_, ?_, ?_⟩
    · rw [generate_policy_key_data]
      rfl
    · rw [Sha.hexBytes_length, Sha.sha256_length]
    · exact Sha.hexBytes_mem _
  · rintro v ⟨c, hcv, hcno⟩ hsub
    exact hcno (generate_policy_key_alphabet m d l c (hsub.mem_of_mem c hcv))

/-- Witness for the amended C9 theorem: the end-to-end example fields;
"Doe" contains an uppercase letter, hence is never a substring. -/
theorem generate_policy_key_format_and_privacy_witness :
    (∃ c ∈ "Doe".data, c ∉ policyKeyAlphabet) ∧
    hasWireFormat "policy" (generate_policy_key "ABC123" "1990-01-01" "Doe") ∧
    ¬ SubstringOf "Doe".data (generate_policy_key "ABC123" "1990-01-01" "Doe").data :=
  ⟨by decide, (generate_policy_key_format_and_privacy "ABC123" "1990-01-01" "Doe").1,
   (generate_policy_key_format_and_privacy "ABC123" "1990-01-01" "Doe").2 "Doe" (by decide)⟩

/-- Lookup in a Python dict modeled as an association list. -/
def alGet {α : Type} (k : String) : List (String × α) → Option α
  | [] => none
  | (k₂, v) :: rest => if k = k₂ then some v else alGet k rest

/-- Assignment to a Python dict modeled as an association list: replace
the binding if the key is present, append otherwise. -/
def alSet {α : Type} (k : String) (v : α) : List (String × α) → List (String × α)
  | [] => [(k, v)]
  | (k₂, w) :: rest => if k = k₂ then (k, v) :: rest else (k₂, w) :: alSet k v rest

/-- Deletion from a Python dict modeled as an association list. -/
def alErase {α : Type} (k : String) : List (String × α) → List (String × α)
  | [] => []
  | (k₂, w) :: rest => if k = k₂ then rest else (k₂, w) :: alErase k rest

theorem alGet_alSet_self {α : Type} (k : String) (v : α) (l : List (String × α)) :
    alGet k (alSet k v l) = some v := by
  induction l with
  | nil => simp [alGet, alSet]
  | cons p rest ih =>
    obtain ⟨k₂, w⟩ := p
    by_cases h : k = k₂
    · simp [alSet, h, alGet]
    · simp [alSet, h, alGet, ih]

theorem alGet_alSet_ne {α : Type} (k q : String) (v : α) (l : List (String × α))
    (h : q ≠ k) : alGet q (alSet k v l) = alGet q l := by
  induction l with
  | nil => simp [alGet, alSet, h]
  | cons p rest ih =>
    obtain ⟨k₂, w⟩ := p
    by_cases hk : k = k₂
    · subst hk
      simp [alSet, alGet, h]
    · by_cases hq : q = k₂ <;> simp [alSet, hk, alGet, hq, ih]

theorem alGet_eq_none_of_not_mem {α : Type} (k : String) (l : List (String × α))
    (h : k ∉ l.map Prod.fst) : alGet k l = none := by
  induction l with
  | nil => rfl
  | cons p rest ih =>
    obtain ⟨k₂, w⟩ := p
    simp only [List.map_cons, List.mem_cons] at h
    push_neg at h
    simp [alGet, h.1, ih h.2]

theorem alGet_alErase_self {α : Type} (k : String) (l : List (String × α))
    (h : (l.map Prod.fst).Nodup) : alGet k (alErase k l) = none := by
  induction l with
  | nil => rfl
  | cons p rest ih =>
    obtain ⟨k₂, w⟩ := p
    simp only [List.map_cons, List.nodup_cons] at h
    by_cases hk : k = k₂
    · subst hk
      simp only [alErase, if_pos rfl]
      exact alGet_eq_none_of_not_mem _ _ h.1
    · simp [alErase, hk, alGet, ih h.2]

/-- A value stored in MockRedis.data: either a string (from set) or a
field mapping (from hset). -/
inductive MVal
  | str (s : String)
  | hmap (m : List (String × String))
deriving DecidableEq

/-- MockRedis from backend/app/core/mock_redis.py: a data dict and an
expiry dict holding absolute expiration instants. -/
structure MockRedis where
  data : List (String × MVal)
  expiry : List (String × Nat)
deriving DecidableEq

/-- MockRedis.set: store the value; record an expiry instant only when
the ex argument is truthy (present and nonzero). -/
def MockRedis.set (st : MockRedis) (key value : String) (ex : Option Nat) (now : Nat) :
    MockRedis :=
  { data := alSet key (MVal.str value) st.data,
    expiry :=
      match ex with
      | some e => if e = 0 then st.expiry else alSet key (now + e) st.expiry
      | none => st.expiry }

/-- MockRedis.get: if the key has a recorded expiry instant strictly in
the past, delete the key from both dicts and report absence; otherwise
return the data entry.  The store after the call is returned explicitly
because the expired branch mutates it. -/
def MockRedis.get (st : MockRedis) (key : String) (now : Nat) : Option MVal × MockRedis :=
  match alGet key st.expiry with
  | some e =>
    if now > e then (none, ⟨alErase key st.data, alErase key st.expiry⟩)
    else (alGet key st.data, st)
  | none => (alGet key st.data, st)

/-- MockRedis.hset: merge the mapping into an existing hash value,
create the hash when the key is absent, and raise (modeled as none)
when the existing value is a plain string. -/
def MockRedis.hset (st : MockRedis) (key : String) (mapping : List (String × String)) :
    Option MockRedis :=
  match alGet key st.data with
  | none => some { st with data := alSet key (MVal.hmap mapping) st.data }
  | some (MVal.hmap m) =>
    some { st with
      data := alSet key (MVal.hmap (mapping.foldl (fun acc kv => alSet kv.1 kv.2 acc) m)) st.data }
  | some (MVal.str _) => none

/-- C8: an entry written to the store with a positive TTL t is never
returned by get at any instant strictly after the write instant plus t;
the expired entry behaves exactly like an absent one. -/
theorem mockRedis_expired_entry_is_absent (st : MockRedis) (k v : String) (t n₀ n₁ : Nat)
    (ht : 0 < t) (hlate : n₀ + t < n₁) :
    ((MockRedis.set st k v (some t) n₀).get k n₁).1 = none := by
  have htne : ¬ t = 0 := by omega
  simp [MockRedis.set, MockRedis.get, htne, alGet_alSet_self, hlate]

/-- Witness for the C8 theorem at a concrete store, TTL and instants. -/
theorem mockRedis_expired_entry_is_absent_witness :
    0 < 1 ∧ 0 + 1 < 2 ∧ ((MockRedis.set ⟨[], []⟩ "k" "v" (some 1) 0).get "k" 2).1 = none :=
  ⟨by decide, by decide,
   mockRedis_expired_entry_is_absent ⟨[], []⟩ "k" "v" 1 0 2 (by decide) (by decide)⟩

/-- C10: reading an expired key mutates the store: get deletes the
entry from both the data dict and the expiry dict before reporting a
plain miss, so the store state after the call differs from the state
before it. -/
theorem mockRedis_get_expired_deletes (st : MockRedis) (k : String) (now e : Nat) (w : MVal)
    (hnd : (st.data.map Prod.fst).Nodup) (hne : (st.expiry.map Prod.fst).Nodup)
    (hexp : alGet k st.expiry = some e) (hlate : e < now)
    (hdata : alGet k st.data = some w) :
    (st.get k now).1 = none ∧
    (st.get k now).2 = ⟨alErase k st.data, alErase k st.expiry⟩ ∧
    alGet k (st.get k now).2.data = none ∧
    alGet k (st.get k now).2.expiry = none ∧
    (st.get k now).2.data ≠ st.data := by
  have hget : st.get k now = (none, ⟨alErase k st.data, alErase k st.expiry⟩) := by
    simp [MockRedis.get, hexp, hlate]
  refine ⟨by rw [hget], by rw [hget], ?_, ?_, ?_⟩
  · rw [hget]
    exact alGet_alErase_self k st.data hnd
  · rw [hget]
    exact alGet_alErase_self k st.expiry hne
  · rw [hget]
    intro hEq
    have h0 : alGet k (alErase k st.data) = none := alGet_alErase_self k st.data hnd
    rw [show (⟨alErase k st.data, alErase k st.expiry⟩ : MockRedis).data =
      alErase k st.data from rfl] at hEq
    rw [hEq, hdata] at h0
    exact Option.noConfusion h0

/-- Witness for the C10 theorem at a concrete expired store entry. -/
theorem mockRedis_get_expired_deletes_witness :
    alGet "k" ([("k", 5)] : List (String × Nat)) = some 5 ∧ (5 : Nat) < 6 ∧
    alGet "k" ([("k", MVal.str "x")] : List (String × MVal)) = some (MVal.str "x") ∧
    ((⟨[("k", MVal.str "x")], [("k", 5)]⟩ : MockRedis).get "k" 6).1 = none ∧
    ((⟨[("k", MVal.str "x")], [("k", 5)]⟩ : MockRedis).get "k" 6).2.data ≠
      (⟨[("k", MVal.str "x")], [("k", 5)]⟩ : MockRedis).data :=
  ⟨by decide, by decide, by decide,
   (mockRedis_get_expired_deletes ⟨[("k", MVal.str "x")], [("k", 5)]⟩ "k" 6 5 (MVal.str "x")
     (by decide) (by decide) (by decide) (by decide) (by decide)).1,
   (mockRedis_get_expired_deletes ⟨[("k", MVal.str "x")], [("k", 5)]⟩ "k" 6 5 (MVal.str "x")
     (by decide) (by decide) (by decide) (by decide) (by decide)).2.2.2.2⟩

/-- A JSON object as transported through the cache: a dict with string
fields.  json.dumps on the write path and json.loads on the read path
round-trip such a dict, so the serialization is collapsed to the dict
itself. -/
abbrev Val := List (String × String)

/-- The redis server state as the async client of
backend/app/core/redis_client.py observes it: entries carrying an
optional absolute expiration instant; the server itself does not mutate
on reads. -/
structure RServer where
  entries : List (String × (Val × Option Nat))
deriving DecidableEq

/-- A read from the server: an entry whose expiration instant is
strictly in the past is absent. -/
def rserverGet (st : RServer) (now : Nat) (key : String) : Option Val :=
  match alGet key st.entries with
  | none => none
  | some (v, none) => some v
  | some (v, some e) => if now > e then none else some v

/-- A write to the server, with an optional absolute expiration. -/
def rserverSet (st : RServer) (key : String) (v : Val) (exp : Option Nat) : RServer :=
  ⟨alSet key (v, exp) st.entries⟩

/-- Connection condition of the RedisClient wrapper: whether self.redis
is present, and fault injection for an exception raised by the
underlying client on the read or on the write path. -/
structure RedisConn where
  connected : Bool
  getRaises : Bool
  setRaises : Bool

/-- A healthy connection: client present, no faults. -/
def healthyConn : RedisConn := ⟨true, false, false⟩

/-- A connection whose underlying read raises. -/
def readFailConn : RedisConn := ⟨true, true, false⟩

/-- A connection whose underlying write raises. -/
def writeFailConn : RedisConn := ⟨true, false, true⟩

/-- RedisClient.get from backend/app/core/redis_client.py: no client or
an exception on the read path is caught, logged and becomes None;
otherwise the JSON payload is decoded (collapsed here to the stored
dict, which is truthy because a serialized dict is a non-empty
string). -/
def RedisClient.get (conn : RedisConn) (st : RServer) (now : Nat) (key : String) :
    Option Val :=
  if conn.connected = false then none
  else if conn.getRaises then none
  else rserverGet st now key

/-- RedisClient.set from backend/app/core/redis_client.py: no client
gives False; an exception on the write path is caught, logged and
becomes False with the server unchanged; a truthy ttl selects setex,
otherwise a plain set. -/
def RedisClient.set (conn : RedisConn) (st : RServer) (now : Nat) (key : String)
    (v : Val) (ttl : Option Nat) : Bool × RServer :=
  if conn.connected = false then (false, st)
  else if conn.setRaises then (false, st)
  else
    match ttl with
    | some t =>
      if t = 0 then (true, rserverSet st key v none)
      else (true, rserverSet st key v (some (now + t)))
    | none => (true, rserverSet st key v none)

/-- settings.DEFAULT_CACHE_TTL from backend/app/core/config.py. -/
def DEFAULT_CACHE_TTL : Nat := 3600

/-- CacheService.get_verification: delegates to RedisClient.get; an
exception is caught and becomes None (the wrapper already never
raises). -/
def CacheService.get_verification (conn : RedisConn) (st : RServer) (now : Nat)
    (key : String) : Option Val :=
  RedisClient.get conn st now key

/-- CacheService.cache_verification: the ttl argument defaults to the
configured DEFAULT_CACHE_TTL when absent or zero (Python "ttl or
default"); the boolean write result is ignored and write exceptions are
swallowed. -/
def CacheService.cache_verification (conn : RedisConn) (st : RServer) (now : Nat)
    (key : String) (data : Val) (ttl : Option Nat) : RServer :=
  let t :=
    match ttl with
    | some x => if x = 0 then DEFAULT_CACHE_TTL else x
    | none => DEFAULT_CACHE_TTL
  (RedisClient.set conn st now key data (some t)).2

/-- The response body of the verify_insurance handler (request_id and
the verified_at timestamp carry no information for the cache contract
and are omitted). -/
structure VerificationResponse where
  status : String
  source : String
  provider_response : Val
deriving DecidableEq

/-- The outcome of the verify_insurance handler: a response, or an
HTTPException. -/
inductive VerifyResult
  | ok (resp : VerificationResponse)
  | httpError (code : Nat) (detail : String)
deriving DecidableEq

/-- The verify_insurance handler of
backend/app/api/routes/verification.py.  The injected fetch stands for
VerificationService.verify_with_provider (none models the provider
raising); the final Nat counts its invocations.  The cache-hit test
mirrors Python truthiness of the cached dict: None and the empty dict
both fall through to the provider.  A provider exception is caught by
the blanket handler and surfaces as HTTP 500. -/
def verify_insurance (conn : RedisConn) (st : RServer) (now : Nat)
    (provider member_id dob last_name : String) (fetch : Option Val) :
    VerifyResult × RServer × Nat :=
  let cache_key := generate_verification_key provider member_id dob last_name
  match CacheService.get_verification conn st now cache_key with
  | some v =>
    if v ≠ [] then (VerifyResult.ok ⟨"verified", "cache", v⟩, st, 0)
    else
      match fetch with
      | none => (VerifyResult.httpError 500 "Verification failed", st, 1)
      | some r =>
        (VerifyResult.ok ⟨"verified", "provider", r⟩,
         CacheService.cache_verification conn st now cache_key r none, 1)
  | none =>
    match fetch with
    | none => (VerifyResult.httpError 500 "Verification failed", st, 1)
    | some r =>
      (VerifyResult.ok ⟨"verified", "provider", r⟩,
       CacheService.cache_verification conn st now cache_key r none, 1)

/-- Whether an optional absolute expiration instant still admits the
entry at the given instant. -/
def unexpiredB (now : Nat) : Option Nat → Bool
  | none => true
  | some e => !(now > e : Bool)

set_option maxRecDepth 1000000 in
/-- C2 (counterexample): a store holding an unexpired entry for the
derived key whose value is the empty dict — Python truthiness treats
the entry as a miss, so the fetch is invoked once (not zero times) and
the answer carries source "provider" (not "cache"). -/
theorem verify_insurance_hit_truthiness_counterexample :
    (verify_insurance healthyConn
      ⟨[(generate_verification_key "aetna" "m1" "1990-01-01" "doe", (([] : Val), none))]⟩ 0
      "aetna" "m1" "1990-01-01" "doe" (some [("status", "active")])).2.2 = 1 ∧
    (verify_insurance healthyConn
      ⟨[(generate_verification_key "aetna" "m1" "1990-01-01" "doe", (([] : Val), none))]⟩ 0
      "aetna" "m1" "1990-01-01" "doe" (some [("status", "active")])).1 =
      VerifyResult.ok ⟨"verified", "provider", [("status", "active")]⟩ := by
  constructor <;> decide

/-- C2 (amended): with a healthy connection and a store holding an
unexpired entry with a non-empty value under the derived key, the
handler answers that value with source "cache", leaves the store
unchanged and never invokes the fetch. -/
theorem verify_insurance_cache_hit (st : RServer) (now : Nat)
    (provider member_id dob last_name : String) (fetch : Option Val)
    (v : Val) (e : Option Nat)
    (hentry : alGet (generate_verification_key provider member_id dob last_name) st.entries =
      some (v, e))
    (hunexp : unexpiredB now e = true) (hne : v ≠ []) :
    verify_insurance healthyConn st now provider member_id dob last_name fetch =
      (VerifyResult.ok ⟨"verified", "cache", v⟩, st, 0) := by
  have hcached : CacheService.get_verification healthyConn st now
      (generate_verification_key provider member_id dob last_name) = some v := by
    simp only [CacheService.get_verification, RedisClient.get, healthyConn, rserverGet, hentry]
    cases e with
    | none => simp
    | some t =>
      simp only [unexpiredB, Bool.not_eq_true', decide_eq_false_iff_not] at hunexp
      simp [hunexp]
  simp [verify_insurance, hcached, hne]

set_option maxRecDepth 1000000 in
/-- Witness for the amended C2 theorem at a concrete store. -/
theorem verify_insurance_cache_hit_witness :
    alGet (generate_verification_key "aetna" "m1" "1990-01-01" "doe")
      ([(generate_verification_key "aetna" "m1" "1990-01-01" "doe",
        (([("status", "active")] : Val), some 100))] :
        List (String × (Val × Option Nat))) = some ([("status", "active")], some 100) ∧
    unexpiredB 50 (some 100) = true ∧ ([("status", "active")] : Val) ≠ [] ∧
    verify_insurance healthyConn
      ⟨[(generate_verification_key "aetna" "m1" "1990-01-01" "doe",
        (([("status", "active")] : Val), some 100))]⟩ 50
      "aetna" "m1" "1990-01-01" "doe" none =
      (VerifyResult.ok ⟨"verified", "cache", [("status", "active")]⟩,
       ⟨[(generate_verification_key "aetna" "m1" "1990-01-01" "doe",
         (([("status", "active")] : Val), some 100))]⟩, 0) :=
  ⟨by simp [alGet], by decide, by decide,
   verify_insurance_cache_hit _ 50 "aetna" "m1" "1990-01-01" "doe" none
     [("status", "active")] (some 100) (by simp [alGet]) (by decide) (by decide)⟩

/-- C3: against the empty store the handler invokes the fetch exactly
once, writes the fetched result under the derived key with the
configured TTL, and answers with source "provider". -/
theorem verify_insurance_empty_store (now : Nat)
    (provider member_id dob last_name : String) (r : Val) :
    verify_insurance healthyConn ⟨[]⟩ now provider member_id dob last_name (some r) =
      (VerifyResult.ok ⟨"verified", "provider", r⟩,
       ⟨[(generate_verification_key provider member_id dob last_name,
         (r, some (now + DEFAULT_CACHE_TTL)))]⟩, 1) := by
  rfl

/-- C5: when the fetch raises, a lookup that reaches the fetch
(invocation count one) surfaces an error to the caller and leaves the
store exactly as it was — no negative caching. -/
theorem verify_insurance_fetch_failure (st : RServer) (now : Nat)
    (provider member_id dob last_name : String)
    (hmiss : (verify_insurance healthyConn st now provider member_id dob last_name none).2.2 = 1) :
    verify_insurance healthyConn st now provider member_id dob last_name none =
      (VerifyResult.httpError 500 "Verification failed", st, 1) := by
  cases hc : CacheService.get_verification healthyConn st now
      (generate_verification_key provider member_id dob last_name) with
  | none => simp [verify_insurance, hc]
  | some v =>
    by_cases hv : v = []
    · subst hv
      simp [verify_insurance, hc]
    · exfalso
      have h1 := hmiss
      simp [verify_insurance, hc, hv] at h1

/-- Witness for the C5 theorem at the empty store. -/
theorem verify_insurance_fetch_failure_witness :
    (verify_insurance healthyConn ⟨[]⟩ 0 "aetna" "m1" "1990-01-01" "doe" none).2.2 = 1 ∧
    verify_insurance healthyConn ⟨[]⟩ 0 "aetna" "m1" "1990-01-01" "doe" none =
      (VerifyResult.httpError 500 "Verification failed", ⟨[]⟩, 1) :=
  ⟨rfl, verify_insurance_fetch_failure ⟨[]⟩ 0 "aetna" "m1" "1990-01-01" "doe" rfl⟩

/-- C6: when the read path of the store raises, the failure is
swallowed into a cache miss: the handler proceeds to invoke the fetch
(once) and completes normally with the fetched value instead of
aborting the request — whatever the store holds. -/
theorem verify_insurance_read_failure (st : RServer) (now : Nat)
    (provider member_id dob last_name : String) (r : Val) :
    verify_insurance readFailConn st now provider member_id dob last_name (some r) =
      (VerifyResult.ok ⟨"verified", "provider", r⟩,
       ⟨alSet (generate_verification_key provider member_id dob last_name)
         (r, some (now + DEFAULT_CACHE_TTL)) st.entries⟩, 1) := by
  rfl

/-- C7: when the fetch succeeds but the write path of the store raises,
the failure is swallowed: the handler still returns the freshly fetched
value with source "provider" and no error, and the store is left
unchanged. -/
theorem verify_insurance_write_failure (st : RServer) (now : Nat)
    (provider member_id dob last_name : String) (r : Val)
    (hmiss : (verify_insurance writeFailConn st now provider member_id dob last_name
      (some r)).2.2 = 1) :
    verify_insurance writeFailConn st now provider member_id dob last_name (some r) =
      (VerifyResult.ok ⟨"verified", "provider", r⟩, st, 1) := by
  cases hc : CacheService.get_verification writeFailConn st now
      (generate_verification_key provider member_id dob last_name) with
  | none =>
    simp only [verify_insurance]
    rw [hc]
    simp [CacheService.cache_verification, RedisClient.set, writeFailConn]
  | some v =>
    by_cases hv : v = []
    · subst hv
      simp only [verify_insurance]
      rw [hc]
      simp [CacheService.cache_verification, RedisClient.set, writeFailConn]
    · exfalso
      have h1 := hmiss
      simp [verify_insurance, hc, hv] at h1

/-- Witness for the C7 theorem at the empty store. -/
theorem verify_insurance_write_failure_witness :
    (verify_insurance writeFailConn ⟨[]⟩ 0 "aetna" "m1" "1990-01-01" "doe"
      (some [("status", "active")])).2.2 = 1 ∧
    verify_insurance writeFailConn ⟨[]⟩ 0 "aetna" "m1" "1990-01-01" "doe"
      (some [("status", "active")]) =
      (VerifyResult.ok ⟨"verified", "provider", [("status", "active")]⟩, ⟨[]⟩, 1) :=
  ⟨rfl, verify_insurance_write_failure ⟨[]⟩ 0 "aetna" "m1" "1990-01-01" "doe"
    [("status", "active")] rfl⟩

/-- The response model of the app.main verify handler (VerifyResponse
from backend/app/dto.py): status and source are read from the provider
payload with defaults, verified_at is the current instant, and the full
provider payload is carried along. -/
structure VerifyResponseM where
  status : String
  verified_at : Nat
  source : String
  provider_response : Val
deriving DecidableEq

/-- Outcome of the app.main verify handler: a fresh response, a
response rebuilt from the cached JSON string, an HTTPException, or an
unhandled exception escaping the handler. -/
inductive MainResult
  | ok (resp : VerifyResponseM)
  | cachedHit (cachedJson : String)
  | httpError (code : Nat) (detail : String)
  | crash
deriving DecidableEq

/-- The verify handler of backend/app/main.py over the MockRedis store
that app/core/database.py wires in.  The cache key embeds the Python
hash of the payload dump, a process-dependent integer passed here as a
parameter and rendered in decimal; respJson stands for the pydantic
model_dump_json serializer; record stands for the serialized
verification_data dict that RedisHelper.set_hash writes under the
request uuid rid.  The final Nat counts invocations of
provider_client.verify.  The cache-hit test mirrors Python truthiness
of the value returned by get_string; a hash value found under the cache
key would make json.loads raise, which escapes the handler (crash). -/
def mainVerify (respJson : VerifyResponseM → String) (record : List (String × String))
    (st : MockRedis) (now : Nat) (payloadHash : Int) (force_refresh : Bool)
    (fetch : Option Val) (rid : String) : MainResult × MockRedis × Nat :=
  let cache_key := "cache:verify:" ++ toString payloadHash
  let checked : Option (MainResult × MockRedis × Nat) × MockRedis :=
    if force_refresh then (none, st)
    else
      match st.get cache_key now with
      | (some (MVal.str s), st₁) =>
        if s ≠ "" then (some (MainResult.cachedHit s, st₁, 0), st₁) else (none, st₁)
      | (some (MVal.hmap m), st₁) =>
        if m ≠ [] then (some (MainResult.crash, st₁, 0), st₁) else (none, st₁)
      | (none, st₁) => (none, st₁)
  match checked with
  | (some res, _) => res
  | (none, st₁) =>
    match fetch with
    | none => (MainResult.httpError 502 "Provider error", st₁, 1)
    | some pr =>
      let resp : VerifyResponseM :=
        ⟨(alGet "status" pr).getD "unknown", now, (alGet "source" pr).getD "provider", pr⟩
      let st₂ := st₁.set cache_key (respJson resp) (some DEFAULT_CACHE_TTL) now
      match st₂.hset ("verifications:" ++ rid) record with
      | none => (MainResult.crash, st₂, 1)
      | some st₃ => (MainResult.ok resp, st₃, 1)

theorem cacheKey_ne_recordKey (a b : String) :
    ("cache:verify:" ++ a) ≠ ("verifications:" ++ b) := by
  intro h
  have h2 : ("cache:verify:" ++ a).data = ("verifications:" ++ b).data := by rw [h]
  rw [String.data_append, String.data_append] at h2
  rw [show "cache:verify:".data = 'c' :: "ache:verify:".data from rfl,
      show "verifications:".data = 'v' :: "erifications:".data from rfl] at h2
  simp only [List.cons_append, List.cons.injEq] at h2
  exact absurd h2.1 (by decide)

theorem hset_preserves_other (st st₂ : MockRedis) (k q : String)
    (mp : List (String × String)) (hne : q ≠ k) (hh : st.hset k mp = some st₂) :
    alGet q st₂.data = alGet q st.data := by
  unfold MockRedis.hset at hh
  cases hget : alGet k st.data with
  | none =>
    rw [hget] at hh
    injection hh with hh
    rw [← hh]
    exact alGet_alSet_ne k q _ st.data hne
  | some mv =>
    rw [hget] at hh
    cases mv with
    | str s => exact Option.noConfusion hh
    | hmap m =>
      injection hh with hh
      rw [← hh]
      exact alGet_alSet_ne k q _ st.data hne

theorem mainVerify_force_refresh_eq (respJson : VerifyResponseM → String)
    (record : List (String × String)) (st : MockRedis) (now : Nat) (payloadHash : Int)
    (pr : Val) (rid : String) :
    mainVerify respJson record st now payloadHash true (some pr) rid =
      (let resp : VerifyResponseM :=
        ⟨(alGet "status" pr).getD "unknown", now, (alGet "source" pr).getD "provider", pr⟩
       let st₂ := st.set ("cache:verify:" ++ toString payloadHash) (respJson resp)
         (some DEFAULT_CACHE_TTL) now
       match st₂.hset ("verifications:" ++ rid) record with
       | none => (MainResult.crash, st₂, 1)
       | some st₃ => (MainResult.ok resp, st₃, 1)) := by
  rfl

/-- C4: with force_refresh set, even against a store already holding an
entry under the cache key, the cache-read step is skipped, the provider
fetch is still invoked exactly once, and the fetched response is
written over the existing entry under the cache key (the cache-write
step still happens; the verification record is written under a distinct
key and cannot shadow it). -/
theorem mainVerify_force_refresh (respJson : VerifyResponseM → String)
    (record : List (String × String)) (st : MockRedis) (now : Nat) (payloadHash : Int)
    (pr : Val) (rid : String) :
    (mainVerify respJson record st now payloadHash true (some pr) rid).2.2 = 1 ∧
    alGet ("cache:verify:" ++ toString payloadHash)
      (mainVerify respJson record st now payloadHash true (some pr) rid).2.1.data =
      some (MVal.str (respJson ⟨(alGet "status" pr).getD "unknown", now,
        (alGet "source" pr).getD "provider", pr⟩)) := by
  rw [mainVerify_force_refresh_eq]
  simp only []
  split
  next hh =>
    refine ⟨rfl, ?_⟩
    simp [MockRedis.set, alGet_alSet_self]
  next st₃ hh =>
    refine ⟨rfl, ?_⟩
    have hpres := hset_preserves_other _ st₃ ("verifications:" ++ rid)
      ("cache:verify:" ++ toString payloadHash) record
      (cacheKey_ne_recordKey (toString payloadHash) rid) hh
    rw [hpres]
    simp [MockRedis.set, alGet_alSet_self]
